import Mathlib

/-!
Shallow embedding of `scirpt.py`, a compliance-report generator that
reconciles an asset inventory CSV with a device-compliance export CSV.

Conventions of the embedding:
* Python strings are Lean `String`s; `str.strip()` is `String.trim` and
  `str.upper()` is `String.toUpper` (the data involved is ASCII).
* Python truthiness of a string (`if s:`) is `pyTruthy s`, i.e. `s ≠ ""`.
* A CSV file is a list of text lines; fields are comma-separated (the
  inputs of the repository carry no quoted fields, so `String.splitOn ","`
  models the field splitting of `csv.reader`).
* A `csv.DictReader` row is the association list obtained by zipping the
  header with the fields of the row; a short row is padded (Python pads the
  dict with `None`) and surplus fields are dropped (Python stores them
  under the unreachable key `None`).  Two renderings are used: `zipRow`
  renders the `None` padding as `""`, which is sound for the claims that
  depend only on key presence and per-field defaults; `zipRowOpt` keeps
  the padding as `none`, which the missing-loop claims need, because
  line 138 calls `.strip()` on the raw serial and a `None` there raises
  `AttributeError`.
* Fallible Python code (a dataclass constructor raising `TypeError`) is
  rendered with `Except`.
* The module-level script is a function from a small world state (which
  input files exist, their contents, the current date) to the list of
  observable effects (prints, file writes, directory creations, moves).
-/

set_option autoImplicit false

namespace ComplianceReport

/-- The `Asset` dataclass of `scirpt.py` (lines 9-26). -/
structure Asset where
  name : String
  quantity : String
  serial_number : String
  location : String
  comments : String
  manufacturer : String
  supplier : String
  asset_type : String
  assigned_to : String
  company : String
  mac_wired : String
  mac_wireless : String
  purchase_date : String
  warranty_expire : String
  notes : String
  owner : String
deriving DecidableEq, Repr

/-- The `NonComplianceData` dataclass of `scirpt.py` (lines 28-52). -/
structure NonComplianceData where
  DeviceName : String
  UPN : String
  ComplianceState : String
  ComplianceState_loc : String
  OS : String
  OS_loc : String
  OSVersion : String
  OwnerType : String
  OwnerType_loc : String
  LastContact : String
  ManagementAgents : String
  ManagementAgents_loc : String
  InGracePeriodUntil : String
  DeviceHealthThreatLevel : String
  DeviceHealthThreatLevel_loc : String
  UserEmail : String
  UserName : String
  IntuneDeviceId : String
  AadDeviceId : String
  UserId : String
  IMEI : String
  SerialNumber : String
  RetireAfterDatetime : String
deriving DecidableEq, Repr

/-- Python truthiness of a string: `if s:` holds iff `s` is non-empty. -/
def pyTruthy (s : String) : Bool := !(s == "")

/-- The characters `str.strip()` removes: ASCII whitespace. -/
def pySpace (c : Char) : Bool :=
  c == ' ' || c == '\t' || c == '\n' || c == '\r' || c == '\x0b' || c == '\x0c'

/-- Python `str.strip()`: drop leading and trailing whitespace. -/
def pyStrip (s : String) : String :=
  String.mk (((s.data.dropWhile pySpace).reverse.dropWhile pySpace).reverse)

/-- Python `str.upper()` on the ASCII data at hand. -/
def pyUpper (s : String) : String :=
  String.mk (s.data.map Char.toUpper)

/-- Serial-number normalization used throughout `generate_report`:
`s.strip().upper()`. -/
def normalizeSN (s : String) : String := pyUpper (pyStrip s)

/-- The set comprehension of lines 111-114: normalized serials of the
compliance records whose raw serial is truthy.  Membership in the Python
set is membership in this list. -/
def nonCompliantSNs (devices : List NonComplianceData) : List String :=
  (devices.filter (fun d => pyTruthy d.SerialNumber)).map
    (fun d => normalizeSN d.SerialNumber)

/-- The set comprehension of lines 116-119: normalized serials of the
asset records whose raw serial is truthy. -/
def assetSNs (assets : List Asset) : List String :=
  (assets.filter (fun a => pyTruthy a.serial_number)).map
    (fun a => normalizeSN a.serial_number)

/-- The body of the f-string written at line 131 for a matched asset. -/
def matchLine (a : Asset) : String :=
  "MATCH: " ++ a.name ++ " | SN: " ++ a.serial_number ++ " | User: " ++ a.assigned_to

/-- The body of the f-string written at line 140 for a missing device. -/
def missingLine (d : NonComplianceData) : String :=
  "MISSING: " ++ d.DeviceName ++ " | SN: " ++ d.SerialNumber ++ " | User: " ++ d.UserName

/-- The matched-section loop of lines 127-132: walks the asset list in
order, emits a `MATCH` line for each asset whose normalized serial is in
`sns` (the non-compliant serial set), and counts the emissions.  Note
the loop has no emptiness guard on `sn_clean`. -/
def matchSection (sns : List String) : List Asset → List String × Nat
  | [] => ([], 0)
  | a :: rest =>
    let (ls, n) := matchSection sns rest
    if sns.contains (normalizeSN a.serial_number) then
      (matchLine a :: ls, n + 1)
    else
      (ls, n)

/-- The missing-section loop of lines 136-141: walks the compliance list
in order, emits a `MISSING` line for each device whose normalized serial
is truthy and not in `asns` (the asset serial set), and counts the
emissions. -/
def missingSection (asns : List String) : List NonComplianceData → List String × Nat
  | [] => ([], 0)
  | d :: rest =>
    let (ls, n) := missingSection asns rest
    if pyTruthy (normalizeSN d.SerialNumber)
        && !(asns.contains (normalizeSN d.SerialNumber)) then
      (missingLine d :: ls, n + 1)
    else
      (ls, n)

/-- The 40-character `"="*40` separator of lines 123 and 143. -/
def sepLine : String := String.mk (List.replicate 40 (Char.ofNat 61))

/-- The report body written by `generate_report` (lines 121-145), as the
list of text lines of the produced file. -/
def reportLines (assets : List Asset) (devices : List NonComplianceData) :
    List String :=
  let matched := matchSection (nonCompliantSNs devices) assets
  let missing := missingSection (assetSNs assets) devices
  ["COMPLIANCE AUDIT REPORT", sepLine, "",
   "--- NON-COMPLIANT ASSETS FOUND IN DATABASE ---"]
  ++ matched.1
  ++ ["", "--- INTUNE DEVICES MISSING FROM ASSET DATABASE ---"]
  ++ missing.1
  ++ ["", sepLine,
      "Total Non-Compliant Matches: " ++ toString matched.2,
      "Total Devices Missing from Inventory: " ++ toString missing.2]

/-- The full byte content of the report file: every `f.write` ends its
line with a newline, so the content is the lines joined by and terminated
with `"\n"`. -/
def reportContent (assets : List Asset) (devices : List NonComplianceData) :
    String :=
  String.intercalate "\x0a" (reportLines assets devices) ++ "\x0a"

/-- The report file name of line 108: fixed prefix, `MMDDYYYY` date,
fixed extension. -/
def reportName (date : String) : String :=
  "Compliance_Report" ++ date ++ ".txt"

/-- The complete observable output of `generate_report`: the file name it
returns and the content it writes.  Only the name depends on the date. -/
def generateReportOutput (assets : List Asset)
    (devices : List NonComplianceData) (date : String) : String × String :=
  (reportName date, reportContent assets devices)

/-! ### Record Loader (`DataManager.load_data`, lines 58-102) -/

/-- Test of line 63: does the first line of the file begin with the
separator directive `sep=`? -/
def startsWithSep (line : String) : Bool :=
  "sep=".data.isPrefixOf line.data

/-- Lines 60-64: the first line is consumed when it starts with `sep=`;
otherwise the file is rewound (`file.seek(0)`) so the line is kept. -/
def dataLines : List String → List String
  | [] => []
  | first :: rest => if startsWithSep first then rest else first :: rest

/-- Comma splitting of one CSV line (the inputs of the repository carry no
quoted fields). -/
def splitCommas : List Char → List Char → List String
  | [], acc => [String.mk acc.reverse]
  | c :: cs, acc =>
    if c == ',' then String.mk acc.reverse :: splitCommas cs []
    else splitCommas cs (c :: acc)

/-- The fields of one CSV line.  `csv.reader` yields `[]` for a blank
line (and `DictReader` then skips the row). -/
def splitFields (line : String) : List String :=
  if line == "" then [] else splitCommas line.data []

/-- Line 67: header names are the fields of the first row with surrounding
whitespace stripped. -/
def parseHeader (line : String) : List String :=
  (splitFields line).map pyStrip

/-- The non-blank rows of the file body, as field lists (`DictReader`
skips rows whose field list is empty). -/
def parsedRows (rows : List String) : List (List String) :=
  (rows.map splitFields).filter (fun r => !r.isEmpty)

/-- A `csv.DictReader` row: header names associated with field values.
A short row is padded (Python uses `restval=None`, rendered `""` here),
and surplus fields are dropped (Python keeps them under the key `None`,
which no named lookup reaches).  The `""` rendering of the padding is
faithful for key presence and for defaulting of header-absent columns;
for the code paths that distinguish a stored `None` from a string (the
`.strip()` calls of `generate_report`), `zipRowOpt` below keeps the
`None`. -/
def zipRow : List String → List String → List (String × String)
  | [], _ => []
  | k :: ks, [] => (k, "") :: zipRow ks []
  | k :: ks, v :: vs => (k, v) :: zipRow ks vs

/-- Python `row.get(key, default)`.  A `dict` keeps the last value bound
to a duplicated key, hence the lookup from the rear. -/
def pyGet (row : List (String × String)) (key dflt : String) : String :=
  match row.reverse.find? (fun kv => kv.1 == key) with
  | some kv => kv.2
  | none => dflt

/-- Python `key in row`. -/
def rowHas (row : List (String × String)) (key : String) : Bool :=
  row.any (fun kv => kv.1 == key)

/-- Lines 84-101: an `Asset` built from one row, each field pulled from
its named column with its per-field default. -/
def loadAsset (row : List (String × String)) : Asset where
  name := pyGet row "Name" "N/A"
  quantity := pyGet row "Quantity" "0"
  serial_number := pyGet row "SerialNumber" "N/A"
  location := pyGet row "Location" "N/A"
  comments := pyGet row "Comments" ""
  manufacturer := pyGet row "Manufacturer" "N/A"
  supplier := pyGet row "Supplier" "N/A"
  asset_type := pyGet row "Type" "N/A"
  assigned_to := pyGet row "Assigned To" "N/A"
  company := pyGet row "Company" "N/A"
  mac_wired := pyGet row "MAC - Wired" "N/A"
  mac_wireless := pyGet row "MAC - Wireless" "N/A"
  purchase_date := pyGet row "Purchase Date" "N/A"
  warranty_expire := pyGet row "Warranty Expire" "N/A"
  notes := pyGet row "Additional Notes" ""
  owner := pyGet row "Owner" "N/A"

/-- The field names of the `NonComplianceData` dataclass (the `valid_fields` of line 71); all 23 are required by the dataclass constructor. -/
def requiredNCFields : List String :=
  ["DeviceName", "UPN", "ComplianceState", "ComplianceState_loc", "OS",
   "OS_loc", "OSVersion", "OwnerType", "OwnerType_loc", "LastContact",
   "ManagementAgents", "ManagementAgents_loc", "InGracePeriodUntil",
   "DeviceHealthThreatLevel", "DeviceHealthThreatLevel_loc", "UserEmail",
   "UserName", "IntuneDeviceId", "AadDeviceId", "UserId", "IMEI",
   "SerialNumber", "RetireAfterDatetime"]

/-- Lines 73-79: row keys outside `valid_fields` are filtered away, then
`NonComplianceData(**filtered_row)` is called.  The dataclass has no
field defaults, so the constructor raises `TypeError` as soon as one of
its 23 fields has no column in the row. -/
def loadNonCompliance (row : List (String × String)) :
    Except String NonComplianceData :=
  if requiredNCFields.all (fun k => rowHas row k) then
    .ok
      { DeviceName := pyGet row "DeviceName" ""
        UPN := pyGet row "UPN" ""
        ComplianceState := pyGet row "ComplianceState" ""
        ComplianceState_loc := pyGet row "ComplianceState_loc" ""
        OS := pyGet row "OS" ""
        OS_loc := pyGet row "OS_loc" ""
        OSVersion := pyGet row "OSVersion" ""
        OwnerType := pyGet row "OwnerType" ""
        OwnerType_loc := pyGet row "OwnerType_loc" ""
        LastContact := pyGet row "LastContact" ""
        ManagementAgents := pyGet row "ManagementAgents" ""
        ManagementAgents_loc := pyGet row "ManagementAgents_loc" ""
        InGracePeriodUntil := pyGet row "InGracePeriodUntil" ""
        DeviceHealthThreatLevel := pyGet row "DeviceHealthThreatLevel" ""
        DeviceHealthThreatLevel_loc := pyGet row "DeviceHealthThreatLevel_loc" ""
        UserEmail := pyGet row "UserEmail" ""
        UserName := pyGet row "UserName" ""
        IntuneDeviceId := pyGet row "IntuneDeviceId" ""
        AadDeviceId := pyGet row "AadDeviceId" ""
        UserId := pyGet row "UserId" ""
        IMEI := pyGet row "IMEI" ""
        SerialNumber := pyGet row "SerialNumber" ""
        RetireAfterDatetime := pyGet row "RetireAfterDatetime" "" }
  else
    .error "TypeError: missing required dataclass field"

/-- `load_data` on `assets.csv`: the lines of the file to the loaded asset
sequence, in row order.  An empty file makes `csv.DictReader` expose
`fieldnames = None` and line 67 raise, rendered as an error. -/
def loadAssetFile (lines : List String) : Except String (List Asset) :=
  match dataLines lines with
  | [] => .error "TypeError: file has no header row"
  | header :: rows =>
    .ok ((parsedRows rows).map (fun f => loadAsset (zipRow (parseHeader header) f)))

/-- The loop of lines 73-79 over the rows: build each record in order,
aborting at the first row whose construction raises. -/
def loadRows {β : Type} (g : List String → Except String β) :
    List (List String) → Except String (List β)
  | [] => .ok []
  | f :: fs =>
    match g f with
    | .error e => .error e
    | .ok b =>
      match loadRows g fs with
      | .error e => .error e
      | .ok bs => .ok (b :: bs)

/-- `load_data` on `noncompliance.csv`: the lines of the file to the loaded
compliance sequence, in row order; the first row whose dict misses one
of the 23 dataclass fields aborts the load. -/
def loadNonComplianceFile (lines : List String) :
    Except String (List NonComplianceData) :=
  match dataLines lines with
  | [] => .error "TypeError: file has no header row"
  | header :: rows =>
    loadRows (fun f => loadNonCompliance (zipRow (parseHeader header) f))
      (parsedRows rows)

/-! ### The loaded compliance record as Python actually holds it

`csv.DictReader` pads a short (non-blank) row with `restval = None`, and
the dataclass constructor accepts those `None`s, so a loaded
`NonComplianceData` field can be `None` rather than a string.  The
missing loop of `generate_report` (line 138) evaluates
`device.SerialNumber.strip()` before its truthiness guard, so a `None`
serial raises `AttributeError` there and aborts the run.  The following
model keeps the `None`s. -/

/-- A loaded compliance record with Python fidelity: each field is a
string or `None` (`none`), exactly as `NonComplianceData(**filtered_row)`
stores it when the row was shorter than the header. -/
structure NonComplianceDataOpt where
  DeviceName : Option String
  UPN : Option String
  ComplianceState : Option String
  ComplianceState_loc : Option String
  OS : Option String
  OS_loc : Option String
  OSVersion : Option String
  OwnerType : Option String
  OwnerType_loc : Option String
  LastContact : Option String
  ManagementAgents : Option String
  ManagementAgents_loc : Option String
  InGracePeriodUntil : Option String
  DeviceHealthThreatLevel : Option String
  DeviceHealthThreatLevel_loc : Option String
  UserEmail : Option String
  UserName : Option String
  IntuneDeviceId : Option String
  AadDeviceId : Option String
  UserId : Option String
  IMEI : Option String
  SerialNumber : Option String
  RetireAfterDatetime : Option String
deriving DecidableEq, Repr

/-- How an f-string renders a field value: `None` prints as `"None"`. -/
def pyShow : Option String → String
  | none => "None"
  | some s => s

/-- The `DictReader` row with the `restval = None` padding kept: a key
missing its field is bound to `none`. -/
def zipRowOpt : List String → List String → List (String × Option String)
  | [], _ => []
  | k :: ks, [] => (k, none) :: zipRowOpt ks []
  | k :: ks, v :: vs => (k, some v) :: zipRowOpt ks vs

/-- Python `key in row` on the `None`-keeping row. -/
def rowHasOpt (row : List (String × Option String)) (key : String) : Bool :=
  row.any (fun kv => kv.1 == key)

/-- The stored value of a present key (possibly `None`); last binding of
a duplicated key wins, as in a Python `dict`. -/
def pyGetOpt (row : List (String × Option String)) (key : String) :
    Option String :=
  match row.reverse.find? (fun kv => kv.1 == key) with
  | some kv => kv.2
  | none => none

/-- Lines 73-79 on the `None`-keeping row: construction succeeds iff
every dataclass column is a key of the row, and each field stores the
raw value, `None` included. -/
def loadNonComplianceOpt (row : List (String × Option String)) :
    Except String NonComplianceDataOpt :=
  if requiredNCFields.all (fun k => rowHasOpt row k) then
    .ok
      { DeviceName := pyGetOpt row "DeviceName"
        UPN := pyGetOpt row "UPN"
        ComplianceState := pyGetOpt row "ComplianceState"
        ComplianceState_loc := pyGetOpt row "ComplianceState_loc"
        OS := pyGetOpt row "OS"
        OS_loc := pyGetOpt row "OS_loc"
        OSVersion := pyGetOpt row "OSVersion"
        OwnerType := pyGetOpt row "OwnerType"
        OwnerType_loc := pyGetOpt row "OwnerType_loc"
        LastContact := pyGetOpt row "LastContact"
        ManagementAgents := pyGetOpt row "ManagementAgents"
        ManagementAgents_loc := pyGetOpt row "ManagementAgents_loc"
        InGracePeriodUntil := pyGetOpt row "InGracePeriodUntil"
        DeviceHealthThreatLevel := pyGetOpt row "DeviceHealthThreatLevel"
        DeviceHealthThreatLevel_loc := pyGetOpt row "DeviceHealthThreatLevel_loc"
        UserEmail := pyGetOpt row "UserEmail"
        UserName := pyGetOpt row "UserName"
        IntuneDeviceId := pyGetOpt row "IntuneDeviceId"
        AadDeviceId := pyGetOpt row "AadDeviceId"
        UserId := pyGetOpt row "UserId"
        IMEI := pyGetOpt row "IMEI"
        SerialNumber := pyGetOpt row "SerialNumber"
        RetireAfterDatetime := pyGetOpt row "RetireAfterDatetime" }
  else
    .error "TypeError: missing required dataclass field"

/-- `load_data` on `noncompliance.csv` with the `None`s kept. -/
def loadNonComplianceFileOpt (lines : List String) :
    Except String (List NonComplianceDataOpt) :=
  match dataLines lines with
  | [] => .error "TypeError: file has no header row"
  | header :: rows =>
    loadRows (fun f => loadNonComplianceOpt (zipRowOpt (parseHeader header) f))
      (parsedRows rows)

/-- The f-string of line 140 over a `None`-keeping record. -/
def missingLineOpt (d : NonComplianceDataOpt) : String :=
  "MISSING: " ++ pyShow d.DeviceName ++ " | SN: " ++ pyShow d.SerialNumber
    ++ " | User: " ++ pyShow d.UserName

/-- The missing-section loop of lines 136-141 over `None`-keeping
records: line 138 calls `.strip()` on the raw serial before the guard,
so the first record with a `None` serial raises `AttributeError` and
aborts the loop.  The result is the list of `MISSING` lines written
before the loop ended, paired with `true` when it ran to completion and
`false` when it crashed. -/
def missingSectionOpt (asns : List String) :
    List NonComplianceDataOpt → List String × Bool
  | [] => ([], true)
  | d :: rest =>
    match d.SerialNumber with
    | none => ([], false)
    | some sn =>
      if pyTruthy (normalizeSN sn) && !(asns.contains (normalizeSN sn)) then
        (missingLineOpt d :: (missingSectionOpt asns rest).1,
         (missingSectionOpt asns rest).2)
      else
        missingSectionOpt asns rest

/-- The criterion of claim C5 for a loaded compliance record: its
normalized serial number is a non-empty string that is not among the
normalized serial numbers of the asset records (a `None` serial
satisfies no such criterion). -/
def missingPredOpt (assets : List Asset) (d : NonComplianceDataOpt) : Bool :=
  match d.SerialNumber with
  | none => false
  | some sn =>
    !(normalizeSN sn == "")
      && !((assets.map (fun a => normalizeSN a.serial_number)).contains
            (normalizeSN sn))

/-! ### Module-level execution (lines 150-188) -/

/-- An observable side effect of the script. -/
inductive Effect where
  | print (msg : String)
  | writeFile (path : String) (content : String)
  | makeDir (path : String)
  | moveFile (src : String) (dst : String)
deriving DecidableEq, Repr

/-- Effects other than console output. -/
def Effect.touchesFilesystem : Effect → Bool
  | .print _ => false
  | .writeFile _ _ => true
  | .makeDir _ => true
  | .moveFile _ _ => true

/-- The state the script observes: which fixed input files exist, their
contents, whether the dated archive folder already exists, and the
current date rendered `MMDDYYYY`. -/
structure World where
  noncomplianceExists : Bool
  assetsExists : Bool
  noncomplianceLines : List String
  assetLines : List String
  folderExists : Bool
  date : String
deriving Repr

/-- The archive folder name of line 153. -/
def folderName (date : String) : String := "Report" ++ date

/-- `archive_file` (lines 150-170) in the happy path of the script, where the
two inputs still exist and the report was just written: create the dated
folder when absent, then move each of the three files into it. -/
def archiveEffects (folderExists : Bool) (date rpt : String) : List Effect :=
  (if folderExists then []
   else [.makeDir (folderName date),
         .print ("Created folder: " ++ folderName date)])
  ++ (["assets.csv", "noncompliance.csv", rpt].flatMap (fun f =>
        [.moveFile f (folderName date ++ "/" ++ f),
         .print ("Moved " ++ f ++ " to " ++ folderName date)]))

/-- The effects of `generate_report`: write the report file, print the
success message. -/
def generateReportEffects (assets : List Asset)
    (devices : List NonComplianceData) (date : String) : List Effect :=
  [.writeFile (reportName date) (reportContent assets devices),
   .print ("Report successfully generated: " ++ reportName date)]

/-- The module-level execution of lines 172-188: check both fixed input
files, and either run load → report → archive, or print the diagnostic
naming the missing file(s).  An uncaught load exception aborts the run
before any further effect. -/
def mainEffects (w : World) : List Effect :=
  if w.noncomplianceExists && w.assetsExists then
    Effect.print "Files exists! Processing data..." ::
    (match loadNonComplianceFile w.noncomplianceLines,
           loadAssetFile w.assetLines with
     | .ok devices, .ok assets =>
       generateReportEffects assets devices w.date
       ++ archiveEffects w.folderExists w.date (reportName w.date)
     | _, _ => [])
  else if !w.noncomplianceExists && !w.assetsExists then
    [.print "Error: noncompliance.csv & assets.csv not found. Please check that the file has been added to the directory"]
  else if !w.noncomplianceExists then
    [.print "Error: noncompliance.csv not found. Please check that the file has been added to the directory"]
  else
    [.print "Error: assets.csv not found. Please check that the file has been added to the directory"]

/-! ### Concrete fixtures -/

/-- An asset record with the given name, serial and assignee, every
other field `"N/A"`. -/
def mkAsset (nm sn user : String) : Asset :=
  ⟨nm, "N/A", sn, "N/A", "N/A", "N/A", "N/A", "N/A", user, "N/A",
   "N/A", "N/A", "N/A", "N/A", "N/A", "N/A"⟩

/-- A compliance record with the given device name, serial and user
name, every other field empty. -/
def mkDevice (nm sn user : String) : NonComplianceData :=
  ⟨nm, "", "", "", "", "", "", "", "", "", "", "", "", "", "", "",
   user, "", "", "", "", sn, ""⟩

/-- The asset row of the first scenario of the spec. -/
def laptop1 : Asset := mkAsset "Laptop1" "ABC123" "UserA"

/-- The compliance row of the first scenario of the spec. -/
def dev1 : NonComplianceData := mkDevice "Dev1" "abc 123" "User1"

/-- An asset whose serial number is whitespace-only (truthy in Python,
but normalizing to the empty string). -/
def blankSerialAsset : Asset := mkAsset "GhostAsset" " " "Nobody"

/-- A compliance record whose serial number is whitespace-only. -/
def blankSerialDevice : NonComplianceData := mkDevice "GhostDev" " " "Nobody"

/-- A header line carrying all 23 columns of the compliance schema. -/
def ncHeaderLine : String :=
  "DeviceName,UPN,ComplianceState,ComplianceState_loc,OS,OS_loc,OSVersion,"
  ++ "OwnerType,OwnerType_loc,LastContact,ManagementAgents,ManagementAgents_loc,"
  ++ "InGracePeriodUntil,DeviceHealthThreatLevel,DeviceHealthThreatLevel_loc,"
  ++ "UserEmail,UserName,IntuneDeviceId,AadDeviceId,UserId,IMEI,SerialNumber,"
  ++ "RetireAfterDatetime"

/-- A compliance data row with 23 fields (`Dev1` and 22 empties). -/
def ncRowLine : String := "Dev1,,,,,,,,,,,,,,,,,,,,,,"

/-- A compliance data row with only one field: shorter than the
23-column header, so `DictReader` pads the remaining 22 keys with
`None`. -/
def ncShortRowLine : String := "Dev1"

/-- A full 23-field compliance row whose serial number is `XYZ999`. -/
def ncRowXYZ : String := "DevX,,,,,,,,,,,,,,,,UserX,,,,,XYZ999,"

/-- The record loaded from `ncShortRowLine` under the full header:
`DeviceName` holds `"Dev1"` and every other field is `None`. -/
def shortDevOpt : NonComplianceDataOpt :=
  ⟨some "Dev1", none, none, none, none, none, none, none, none, none,
   none, none, none, none, none, none, none, none, none, none, none,
   none, none⟩

/-- The record loaded from `ncRowXYZ` under the full header. -/
def xyzDevOpt : NonComplianceDataOpt :=
  ⟨some "DevX", some "", some "", some "", some "", some "", some "",
   some "", some "", some "", some "", some "", some "", some "",
   some "", some "", some "UserX", some "", some "", some "", some "",
   some "XYZ999", some ""⟩

/-- A world in which neither fixed input file exists. -/
def emptyWorld : World :=
  { noncomplianceExists := false, assetsExists := false,
    noncomplianceLines := [], assetLines := [],
    folderExists := false, date := "01012026" }

/-! ### Bridge lemmas -/

theorem pyTruthy_eq_false {s : String} (h : pyTruthy s = false) : s = "" := by
  simpa [pyTruthy] using h

theorem normalizeSN_empty : normalizeSN "" = "" := rfl

/-- The matched-section loop emits exactly the `MATCH` lines of the
assets passing the membership test, in input order, and counts them. -/
theorem matchSection_eq (sns : List String) (assets : List Asset) :
    matchSection sns assets =
      ((assets.filter (fun a => sns.contains (normalizeSN a.serial_number))).map matchLine,
       (assets.filter (fun a => sns.contains (normalizeSN a.serial_number))).length) := by
  induction assets with
  | nil => rfl
  | cons a rest ih =>
    simp only [matchSection, ih, List.filter_cons]
    cases h : sns.contains (normalizeSN a.serial_number) <;> simp [h]

/-- The missing-section loop emits exactly the `MISSING` lines of the
devices passing the guard, in input order, and counts them. -/
theorem missingSection_eq (asns : List String) (devices : List NonComplianceData) :
    missingSection asns devices =
      ((devices.filter (fun d => pyTruthy (normalizeSN d.SerialNumber)
          && !(asns.contains (normalizeSN d.SerialNumber)))).map missingLine,
       (devices.filter (fun d => pyTruthy (normalizeSN d.SerialNumber)
          && !(asns.contains (normalizeSN d.SerialNumber)))).length) := by
  induction devices with
  | nil => rfl
  | cons d rest ih =>
    simp only [missingSection, ih, List.filter_cons]
    cases h : pyTruthy (normalizeSN d.SerialNumber)
        && !(asns.contains (normalizeSN d.SerialNumber)) <;> simp [h]

/-- Unfolding of the asset serial-set comprehension over a cons. -/
theorem assetSNs_cons (a : Asset) (rest : List Asset) :
    assetSNs (a :: rest) =
      if pyTruthy a.serial_number then
        normalizeSN a.serial_number :: assetSNs rest
      else assetSNs rest := by
  cases h : pyTruthy a.serial_number <;> simp [assetSNs, List.filter_cons, h]

/-- For a non-empty normalized serial, membership in the asset serial
set (which drops assets with falsy raw serials) coincides with
membership among the normalized serials of all assets. -/
theorem assetSNs_contains (assets : List Asset) {n : String} (hn : n ≠ "") :
    (assetSNs assets).contains n =
      (assets.map (fun a => normalizeSN a.serial_number)).contains n := by
  induction assets with
  | nil => rfl
  | cons a rest ih =>
    cases h : pyTruthy a.serial_number
    · have ha : a.serial_number = "" := pyTruthy_eq_false h
      have hne : (n == normalizeSN a.serial_number) = false := by
        rw [ha, normalizeSN_empty]
        simpa using hn
      rw [assetSNs_cons, if_neg (by simp [h]), List.map_cons, List.contains_cons,
        hne, Bool.false_or, ih]
    · rw [assetSNs_cons, if_pos (by simp [h]), List.map_cons, List.contains_cons,
        List.contains_cons, ih]

/-- Exchanging the sides of a boolean string equality test. -/
theorem beq_swap (k a : String) : (k == a) = (a == k) := by
  simp [beq_iff_eq, eq_comm]

/-- The keys of a `DictReader` row are exactly the header names. -/
theorem rowHas_zipRow (ks : List String) (vs : List String) (k : String) :
    rowHas (zipRow ks vs) k = ks.contains k := by
  induction ks generalizing vs with
  | nil => cases vs <;> rfl
  | cons a t ih =>
    cases vs with
    | nil =>
      simp only [zipRow, rowHas, List.any_cons]
      rw [List.contains_cons, ← ih [], beq_swap]
      rfl
    | cons v vt =>
      simp only [zipRow, rowHas, List.any_cons]
      rw [List.contains_cons, ← ih vt, beq_swap]
      rfl

/-- `row.get(key, default)` yields the default when the key is absent. -/
theorem pyGet_of_not_rowHas {row : List (String × String)} {k : String}
    (h : rowHas row k = false) (d : String) : pyGet row k d = d := by
  have hfind : row.reverse.find? (fun kv => kv.1 == k) = none := by
    rw [List.find?_eq_none]
    intro x hx
    rw [List.mem_reverse] at hx
    simp only [rowHas, List.any_eq_false] at h
    exact h x hx
  simp [pyGet, hfind]

/-- Row loading succeeds when the construction of every row succeeds. -/
theorem loadRows_ok {β : Type} (g : List String → Except String β)
    (fs : List (List String)) (h : ∀ f ∈ fs, ∃ b, g f = .ok b) :
    ∃ bs, loadRows g fs = .ok bs := by
  induction fs with
  | nil => exact ⟨[], rfl⟩
  | cons f t ih =>
    obtain ⟨b, hb⟩ := h f (List.mem_cons_self f t)
    obtain ⟨bs, hbs⟩ := ih (fun x hx => h x (List.mem_cons_of_mem f hx))
    exact ⟨b :: bs, by simp [loadRows, hb, hbs]⟩

/-- For a record holding an actual string serial, the missing-loop guard
of line 139 coincides with the claim criterion `missingPredOpt`. -/
theorem missingGuardOpt_eq (assets : List Asset) (d : NonComplianceDataOpt)
    (sn : String) (h : d.SerialNumber = some sn) :
    (pyTruthy (normalizeSN sn) && !((assetSNs assets).contains (normalizeSN sn)))
      = missingPredOpt assets d := by
  have hm : missingPredOpt assets d
      = (!(normalizeSN sn == "")
          && !((assets.map (fun a => normalizeSN a.serial_number)).contains
                (normalizeSN sn))) := by
    unfold missingPredOpt
    rw [h]
  rw [hm, show pyTruthy (normalizeSN sn) = !(normalizeSN sn == "") from rfl]
  cases hn : (normalizeSN sn == "") with
  | true => rfl
  | false => rw [assetSNs_contains assets (by simpa using hn)]

/-- When every loaded compliance record holds a string serial, the
missing loop completes and emits, in input order, exactly the records
meeting the claim criterion. -/
theorem missingSectionOpt_all_some (assets : List Asset)
    (devices : List NonComplianceDataOpt)
    (h : devices.all (fun d => !d.SerialNumber.isNone) = true) :
    missingSectionOpt (assetSNs assets) devices
      = ((devices.filter (missingPredOpt assets)).map missingLineOpt, true) := by
  induction devices with
  | nil => rfl
  | cons d rest ih =>
    rw [List.all_cons, Bool.and_eq_true] at h
    obtain ⟨hd, hrest⟩ := h
    obtain ⟨sn, hsn⟩ : ∃ sn, d.SerialNumber = some sn := by
      cases hs : d.SerialNumber with
      | none => rw [hs] at hd; simp at hd
      | some sn => exact ⟨sn, rfl⟩
    have ihr := ih hrest
    simp only [missingSectionOpt, hsn, List.filter_cons]
    rw [missingGuardOpt_eq assets d sn hsn]
    cases hp : missingPredOpt assets d <;> simp [hp, ihr]

/-- The missing loop raises at the first record with a `None` serial:
only the qualifying records before it are emitted. -/
theorem missingSectionOpt_crash (assets : List Asset)
    (pre : List NonComplianceDataOpt) (dnone : NonComplianceDataOpt)
    (post : List NonComplianceDataOpt) (hnone : dnone.SerialNumber = none)
    (hpre : pre.all (fun d => !d.SerialNumber.isNone) = true) :
    missingSectionOpt (assetSNs assets) (pre ++ dnone :: post)
      = ((pre.filter (missingPredOpt assets)).map missingLineOpt, false) := by
  induction pre with
  | nil => simp [missingSectionOpt, hnone]
  | cons d rest ih =>
    rw [List.all_cons, Bool.and_eq_true] at hpre
    obtain ⟨hd, hrest⟩ := hpre
    obtain ⟨sn, hsn⟩ : ∃ sn, d.SerialNumber = some sn := by
      cases hs : d.SerialNumber with
      | none => rw [hs] at hd; simp at hd
      | some sn => exact ⟨sn, rfl⟩
    have ihr := ih hrest
    simp only [List.cons_append, missingSectionOpt, hsn, List.filter_cons]
    rw [missingGuardOpt_eq assets d sn hsn]
    cases hp : missingPredOpt assets d <;> simp [hp, ihr]

/-! ### Claim theorems -/

/-- C1: the claim states that an asset whose serial number normalizes
to the empty string is never emitted as a MATCH line and never
increments the matched count, regardless of the compliance data.  The
code violates this: the match loop has no emptiness guard, so a
whitespace-only asset serial (normalizing to `""`) matches a
whitespace-only compliance serial (truthy, hence admitted to the
non-compliant set, where it also normalizes to `""`), and the MATCH
line is emitted and counted. -/
theorem c1_blank_serial_emitted_as_match :
    normalizeSN blankSerialAsset.serial_number = ""
    ∧ matchSection (nonCompliantSNs [blankSerialDevice]) [blankSerialAsset]
        = ([matchLine blankSerialAsset], 1) := by
  decide

/-- C2: the scenario of the spec claims one MATCH line and zero MISSING
lines for asset serial `ABC123` against compliance serial `abc 123`.
This is false on the code: `strip()` removes only surrounding
whitespace, so `abc 123` normalizes to `ABC 123`, which differs from
`ABC123` — the counterexample shows the matched count is not 1. -/
theorem c2_counterexample :
    ¬ ((matchSection (nonCompliantSNs [dev1]) [laptop1]).2 = 1
       ∧ (missingSection (assetSNs [laptop1]) [dev1]).2 = 0) := by
  decide

/-- C2 (amended): for the one-asset (`Laptop1`/`ABC123`), one-device
(`Dev1`/`abc 123`) input, the report has zero MATCH lines, one MISSING
line (for Dev1), a matched count of 0 and a missing count of 1. -/
theorem c2_zero_match_one_missing :
    matchSection (nonCompliantSNs [dev1]) [laptop1] = ([], 0)
    ∧ missingSection (assetSNs [laptop1]) [dev1] = ([missingLine dev1], 1) := by
  decide

/-- C4: for every pair of loaded record collections, the matched count
in the summary equals the number of MATCH lines in the matched section,
the missing count equals the number of MISSING lines in the missing
section, and the two summary lines of the report carry exactly those
line counts. -/
theorem c4_counts_equal_emitted_lines (assets : List Asset)
    (devices : List NonComplianceData) :
    (matchSection (nonCompliantSNs devices) assets).2
        = (matchSection (nonCompliantSNs devices) assets).1.length
    ∧ (missingSection (assetSNs assets) devices).2
        = (missingSection (assetSNs assets) devices).1.length
    ∧ ("Total Non-Compliant Matches: "
          ++ toString (matchSection (nonCompliantSNs devices) assets).1.length)
        ∈ reportLines assets devices
    ∧ ("Total Devices Missing from Inventory: "
          ++ toString (missingSection (assetSNs assets) devices).1.length)
        ∈ reportLines assets devices := by
  have hm := matchSection_eq (nonCompliantSNs devices) assets
  have hs := missingSection_eq (assetSNs assets) devices
  refine ⟨?_, ?_, ?_, ?_⟩
  · rw [hm]; simp
  · rw [hs]; simp
  · simp only [reportLines, hm, List.length_map]
    simp [List.mem_append]
  · simp only [reportLines, hs, List.length_map]
    simp [List.mem_append]

/-- C5: the claim states that for every pair of loaded record
collections a compliance record is emitted as MISSING iff its
normalized serial is non-empty and absent from the asset serials.  This
is false on the program: a loadable compliance file with a full header
and one short row loads a record whose serial is `None`; line 138 calls
`.strip()` on it before the guard, so the missing loop raises
`AttributeError` at that record, and the later record `XYZ999` — which
meets the criterion — is never emitted. -/
theorem c5_counterexample :
    loadNonComplianceFileOpt [ncHeaderLine, ncShortRowLine, ncRowXYZ]
        = .ok [shortDevOpt, xyzDevOpt]
    ∧ missingPredOpt [] xyzDevOpt = true
    ∧ missingSectionOpt (assetSNs []) [shortDevOpt, xyzDevOpt] = ([], false) := by
  refine ⟨by rfl, by rfl, by rfl⟩

/-- C5 (amended): over loaded compliance records as Python holds them,
when every record carries an actual string serial (no compliance row
was shorter than the header) the missing loop completes and a record is
emitted as MISSING iff its normalized serial is non-empty and not among
the normalized serials of the asset records, in compliance input order;
when some record carries a `None` serial, line 138 raises
`AttributeError` at the first such record and exactly the qualifying
records before it are emitted. -/
theorem c5_missing_iff_in_order_amended (assets : List Asset)
    (devices : List NonComplianceDataOpt) :
    (devices.all (fun d => !d.SerialNumber.isNone) = true →
      missingSectionOpt (assetSNs assets) devices
        = ((devices.filter (missingPredOpt assets)).map missingLineOpt, true))
    ∧ (∀ (pre : List NonComplianceDataOpt) (dnone : NonComplianceDataOpt)
          (post : List NonComplianceDataOpt),
        devices = pre ++ dnone :: post →
        dnone.SerialNumber = none →
        pre.all (fun d => !d.SerialNumber.isNone) = true →
        missingSectionOpt (assetSNs assets) devices
          = ((pre.filter (missingPredOpt assets)).map missingLineOpt, false)) := by
  constructor
  · intro h
    exact missingSectionOpt_all_some assets devices h
  · intro pre dnone post hsplit hnone hpre
    rw [hsplit]
    exact missingSectionOpt_crash assets pre dnone post hnone hpre

/-- Witness for C5 (amended): a crash-free singleton collection, and
the crashing two-record collection of the counterexample. -/
theorem c5_missing_iff_in_order_amended_witness :
    missingSectionOpt (assetSNs []) [xyzDevOpt]
        = (([xyzDevOpt].filter (missingPredOpt [])).map missingLineOpt, true)
    ∧ missingSectionOpt (assetSNs []) [shortDevOpt, xyzDevOpt]
        = ((([] : List NonComplianceDataOpt).filter
              (missingPredOpt ([] : List Asset))).map missingLineOpt, false) :=
  ⟨(c5_missing_iff_in_order_amended [] [xyzDevOpt]).1 (by rfl),
   (c5_missing_iff_in_order_amended [] [shortDevOpt, xyzDevOpt]).2
     [] shortDevOpt [xyzDevOpt] rfl rfl (by rfl)⟩

/-- C3: the claim states that for both schemas the loader never fails
solely because of extra or missing columns.  This is false on the
compliance side: the `NonComplianceData` constructor has no field
defaults, so a readable file whose header lacks one of the 23 dataclass
columns makes the load raise — here a file with only a `DeviceName`
column and one data row. -/
theorem c3_counterexample :
    loadNonComplianceFile ["DeviceName", "X"]
      = Except.error "TypeError: missing required dataclass field" := by
  rfl

/-- C3 (amended): the asset loader never fails on a file with a header
row — extra columns are ignored and absent columns are defaulted — and
the compliance loader ignores unrecognized columns and succeeds
whenever every one of the 23 dataclass columns is present in the
header; a header missing one of them makes the load fail. -/
theorem c3_loader_column_tolerance :
    (∀ lines : List String, dataLines lines ≠ [] →
      ∃ as, loadAssetFile lines = .ok as)
    ∧ (∀ (lines : List String) (h : String) (t : List String),
        dataLines lines = h :: t →
        requiredNCFields.all (fun k => (parseHeader h).contains k) = true →
        ∃ ds, loadNonComplianceFile lines = .ok ds) := by
  constructor
  · intro lines hne
    unfold loadAssetFile
    cases hd : dataLines lines with
    | nil => exact absurd hd hne
    | cons h t => exact ⟨_, rfl⟩
  · intro lines h t hd hall
    unfold loadNonComplianceFile
    rw [hd]
    apply loadRows_ok
    intro f _
    have hg : requiredNCFields.all
        (fun k => rowHas (zipRow (parseHeader h) f) k) = true := by
      rw [show (fun k => rowHas (zipRow (parseHeader h) f) k)
            = (fun k => (parseHeader h).contains k)
          from funext (fun k => rowHas_zipRow (parseHeader h) f k)]
      exact hall
    unfold loadNonCompliance
    rw [if_pos hg]
    exact ⟨_, rfl⟩

set_option maxRecDepth 20000 in
/-- Witness for C3 (amended): a one-column asset file loads, and a
compliance file whose header carries all 23 columns loads. -/
theorem c3_loader_column_tolerance_witness :
    (∃ as, loadAssetFile ["Name", "Laptop"] = .ok as)
    ∧ (∃ ds, loadNonComplianceFile [ncHeaderLine, ncRowLine] = .ok ds) :=
  ⟨c3_loader_column_tolerance.1 ["Name", "Laptop"] (by decide),
   c3_loader_column_tolerance.2 [ncHeaderLine, ncRowLine] ncHeaderLine
     [ncRowLine] (by decide) (by decide)⟩

/-- C6: when neither fixed input file exists, the only effect of the script
is one diagnostic print naming both files; nothing touches the
filesystem (no write, no directory creation, no move). -/
theorem c6_no_inputs_no_writes (w : World)
    (h1 : w.noncomplianceExists = false) (h2 : w.assetsExists = false) :
    mainEffects w = [.print ("Error: noncompliance.csv & assets.csv not found."
        ++ " Please check that the file has been added to the directory")]
    ∧ ∀ e ∈ mainEffects w, e.touchesFilesystem = false := by
  have hm : mainEffects w = [.print ("Error: noncompliance.csv & assets.csv not found."
      ++ " Please check that the file has been added to the directory")] := by
    simp [mainEffects, h1, h2]
  refine ⟨hm, ?_⟩
  intro e he
  rw [hm] at he
  simp only [List.mem_singleton] at he
  rw [he]
  rfl

/-- Witness for C6, at the world with no input files. -/
theorem c6_no_inputs_no_writes_witness :
    mainEffects emptyWorld
        = [.print ("Error: noncompliance.csv & assets.csv not found."
            ++ " Please check that the file has been added to the directory")]
    ∧ ∀ e ∈ mainEffects emptyWorld, e.touchesFilesystem = false :=
  c6_no_inputs_no_writes emptyWorld rfl rfl

/-- C7: a first line beginning with the `sep=` directive is dropped and
any other first line is kept (the read position is rewound, so no data
line is lost), and each header name used as a field key is the stripped
form of the raw column name. -/
theorem c7_directive_skip_and_header_trim :
    (∀ (first : String) (rest : List String),
      dataLines (first :: rest)
        = if startsWithSep first then rest else first :: rest)
    ∧ (∀ (line : String) (i : Nat),
        (parseHeader line)[i]? = ((splitFields line)[i]?).map pyStrip) := by
  constructor
  · intro first rest
    rfl
  · intro line i
    exact List.getElem?_map ..

/-- C8: the claim states that every asset field whose column is absent
defaults to `"N/A"` or `""`.  This is false: the quantity field
defaults to `"0"`, as an asset file without a `Quantity` column
shows. -/
theorem c8_counterexample :
    (loadAssetFile ["Name", "Laptop"]).map (List.map Asset.quantity)
        = .ok ["0"]
    ∧ ¬ ("0" = "N/A" ∨ "0" = "") := by
  exact ⟨rfl, by decide⟩

/-- C8 (amended): every asset field whose source column is absent from
the row receives its declared default — `"N/A"` or `""` for every field
except quantity, whose default is `"0"`. -/
theorem c8_field_defaults (row : List (String × String)) :
    (rowHas row "Name" = false → (loadAsset row).name = "N/A")
    ∧ (rowHas row "Quantity" = false → (loadAsset row).quantity = "0")
    ∧ (rowHas row "SerialNumber" = false → (loadAsset row).serial_number = "N/A")
    ∧ (rowHas row "Location" = false → (loadAsset row).location = "N/A")
    ∧ (rowHas row "Comments" = false → (loadAsset row).comments = "")
    ∧ (rowHas row "Manufacturer" = false → (loadAsset row).manufacturer = "N/A")
    ∧ (rowHas row "Supplier" = false → (loadAsset row).supplier = "N/A")
    ∧ (rowHas row "Type" = false → (loadAsset row).asset_type = "N/A")
    ∧ (rowHas row "Assigned To" = false → (loadAsset row).assigned_to = "N/A")
    ∧ (rowHas row "Company" = false → (loadAsset row).company = "N/A")
    ∧ (rowHas row "MAC - Wired" = false → (loadAsset row).mac_wired = "N/A")
    ∧ (rowHas row "MAC - Wireless" = false → (loadAsset row).mac_wireless = "N/A")
    ∧ (rowHas row "Purchase Date" = false → (loadAsset row).purchase_date = "N/A")
    ∧ (rowHas row "Warranty Expire" = false → (loadAsset row).warranty_expire = "N/A")
    ∧ (rowHas row "Additional Notes" = false → (loadAsset row).notes = "")
    ∧ (rowHas row "Owner" = false → (loadAsset row).owner = "N/A") :=
  ⟨fun h => pyGet_of_not_rowHas h _, fun h => pyGet_of_not_rowHas h _,
   fun h => pyGet_of_not_rowHas h _, fun h => pyGet_of_not_rowHas h _,
   fun h => pyGet_of_not_rowHas h _, fun h => pyGet_of_not_rowHas h _,
   fun h => pyGet_of_not_rowHas h _, fun h => pyGet_of_not_rowHas h _,
   fun h => pyGet_of_not_rowHas h _, fun h => pyGet_of_not_rowHas h _,
   fun h => pyGet_of_not_rowHas h _, fun h => pyGet_of_not_rowHas h _,
   fun h => pyGet_of_not_rowHas h _, fun h => pyGet_of_not_rowHas h _,
   fun h => pyGet_of_not_rowHas h _, fun h => pyGet_of_not_rowHas h _⟩

/-- Witness for C8 (amended): the empty row has no columns at all, and
every field of the asset loaded from it carries its default. -/
theorem c8_field_defaults_witness :
    (loadAsset []).name = "N/A" ∧ (loadAsset []).quantity = "0"
    ∧ (loadAsset []).serial_number = "N/A" ∧ (loadAsset []).location = "N/A"
    ∧ (loadAsset []).comments = "" ∧ (loadAsset []).manufacturer = "N/A"
    ∧ (loadAsset []).supplier = "N/A" ∧ (loadAsset []).asset_type = "N/A"
    ∧ (loadAsset []).assigned_to = "N/A" ∧ (loadAsset []).company = "N/A"
    ∧ (loadAsset []).mac_wired = "N/A" ∧ (loadAsset []).mac_wireless = "N/A"
    ∧ (loadAsset []).purchase_date = "N/A" ∧ (loadAsset []).warranty_expire = "N/A"
    ∧ (loadAsset []).notes = "" ∧ (loadAsset []).owner = "N/A" :=
  ⟨(c8_field_defaults []).1 rfl, (c8_field_defaults []).2.1 rfl,
   (c8_field_defaults []).2.2.1 rfl, (c8_field_defaults []).2.2.2.1 rfl,
   (c8_field_defaults []).2.2.2.2.1 rfl, (c8_field_defaults []).2.2.2.2.2.1 rfl,
   (c8_field_defaults []).2.2.2.2.2.2.1 rfl,
   (c8_field_defaults []).2.2.2.2.2.2.2.1 rfl,
   (c8_field_defaults []).2.2.2.2.2.2.2.2.1 rfl,
   (c8_field_defaults []).2.2.2.2.2.2.2.2.2.1 rfl,
   (c8_field_defaults []).2.2.2.2.2.2.2.2.2.2.1 rfl,
   (c8_field_defaults []).2.2.2.2.2.2.2.2.2.2.2.1 rfl,
   (c8_field_defaults []).2.2.2.2.2.2.2.2.2.2.2.2.1 rfl,
   (c8_field_defaults []).2.2.2.2.2.2.2.2.2.2.2.2.2.1 rfl,
   (c8_field_defaults []).2.2.2.2.2.2.2.2.2.2.2.2.2.2.1 rfl,
   (c8_field_defaults []).2.2.2.2.2.2.2.2.2.2.2.2.2.2.2 rfl⟩

/-- C9: report generation is deterministic — the report content is a
function of the two record collections alone (the date only enters the
file name), so two runs over the same collections and the same date
produce identical output, and the content is byte-identical even across
dates. -/
theorem c9_report_deterministic (assets : List Asset)
    (devices : List NonComplianceData) (t1 t2 : String) :
    (generateReportOutput assets devices t1).2
        = (generateReportOutput assets devices t2).2
    ∧ (t1 = t2 →
        generateReportOutput assets devices t1
          = generateReportOutput assets devices t2) :=
  ⟨rfl, fun h => by rw [h]⟩

/-- Witness for C9, at concrete collections and dates. -/
theorem c9_report_deterministic_witness :
    generateReportOutput [laptop1] [dev1] "01012026"
        = generateReportOutput [laptop1] [dev1] "01012026"
    ∧ (generateReportOutput [laptop1] [dev1] "01012026").2
        = (generateReportOutput [laptop1] [dev1] "02022026").2 :=
  ⟨(c9_report_deterministic [laptop1] [dev1] "01012026" "01012026").2 rfl,
   (c9_report_deterministic [laptop1] [dev1] "01012026" "02022026").1⟩

/-- C10: when the asset header lacks a `SerialNumber` column, every
loaded asset receives the serial `"N/A"`; such an asset participates in
matching, and its MATCH line is emitted whenever some compliance
compliance-record normalized serial equals `"N/A"`. -/
theorem c10_na_serial_participates (lines : List String) (h : String)
    (t : List String) (hd : dataLines lines = h :: t)
    (hno : (parseHeader h).contains "SerialNumber" = false) :
    (∃ as, loadAssetFile lines = .ok as ∧ ∀ a ∈ as, a.serial_number = "N/A")
    ∧ (∀ (assets : List Asset) (devices : List NonComplianceData) (a : Asset),
        a ∈ assets → a.serial_number = "N/A" →
        (nonCompliantSNs devices).contains "N/A" = true →
        matchLine a ∈ (matchSection (nonCompliantSNs devices) assets).1) := by
  constructor
  · refine ⟨(parsedRows t).map (fun f => loadAsset (zipRow (parseHeader h) f)),
      ?_, ?_⟩
    · unfold loadAssetFile
      rw [hd]
    · intro a ha
      rw [List.mem_map] at ha
      obtain ⟨f, _, rfl⟩ := ha
      show pyGet (zipRow (parseHeader h) f) "SerialNumber" "N/A" = "N/A"
      apply pyGet_of_not_rowHas
      rw [rowHas_zipRow]
      exact hno
  · intro assets devices a hmem hna hsns
    rw [matchSection_eq]
    apply List.mem_map_of_mem
    rw [List.mem_filter]
    refine ⟨hmem, ?_⟩
    rw [hna, show normalizeSN "N/A" = "N/A" from rfl]
    exact hsns

/-- Witness for C10: a one-column asset file without `SerialNumber`,
and one concrete matching configuration. -/
theorem c10_na_serial_participates_witness :
    (∃ as, loadAssetFile ["Name", "Laptop"] = .ok as
      ∧ ∀ a ∈ as, a.serial_number = "N/A")
    ∧ (∀ (assets : List Asset) (devices : List NonComplianceData) (a : Asset),
        a ∈ assets → a.serial_number = "N/A" →
        (nonCompliantSNs devices).contains "N/A" = true →
        matchLine a ∈ (matchSection (nonCompliantSNs devices) assets).1) :=
  c10_na_serial_participates ["Name", "Laptop"] "Name" ["Laptop"]
    (by decide) (by decide)

end ComplianceReport
